import Mathlib

/-!
Verification of the grays.com vehicle-auction scraper (`main.py`) against its
natural-language specification.  The Python source is shallowly embedded:
BeautifulSoup queries are modelled by a `Soup` structure holding the query
results the code performs, Python string/regex operations are modelled by
executable functions on `List Char`/`String`, and Python exceptions are
modelled with `Except` at exactly the places the source can raise, with
`try/except` blocks mapped to an explicit catch combinator.
-/

namespace GraysScraper

/-! ## String utilities modelling the Python string/regex operations -/

/-- Lowercase a character list (models `str.lower()` for the ASCII texts involved). -/
def lowerL (l : List Char) : List Char := l.map Char.toLower

/-- Is `pat` a prefix of `hay`? (character lists) -/
def isPrefixOfL : List Char → List Char → Bool
  | [], _ => true
  | _ :: _, [] => false
  | a :: as, b :: bs => a = b && isPrefixOfL as bs

/-- Does `hay` contain `pat` as a contiguous substring? (models `pat in hay` / `re.search` of a literal) -/
def containsL (pat : List Char) : List Char → Bool
  | [] => isPrefixOfL pat []
  | c :: rest => isPrefixOfL pat (c :: rest) || containsL pat rest

/-- Case-insensitive substring test (models `re.search(literal, s, re.IGNORECASE)`). -/
def containsCI (hay pat : String) : Bool := containsL (lowerL pat.toList) (lowerL hay.toList)

/-- Case-insensitive prefix test (models `re.search("^literal", s, re.IGNORECASE)`). -/
def startsWithCI (hay pat : String) : Bool := isPrefixOfL (lowerL pat.toList) (lowerL hay.toList)

/-- Strip leading/trailing whitespace (models `str.strip()` and `get_text(strip=True)`). -/
def trimL (l : List Char) : List Char :=
  ((l.dropWhile Char.isWhitespace).reverse.dropWhile Char.isWhitespace).reverse

/-- Python `str.strip()`. -/
def pyStrip (s : String) : String := String.mk (trimL s.toList)

/-- Python `str.upper()` (ASCII). -/
def strUpper (s : String) : String := String.mk (s.toList.map Char.toUpper)

/-- Helper for `pySplitWS`: accumulates the current token (reversed) while scanning. -/
def pySplitWSAux : List Char → List Char → List String
  | [], cur => if cur.isEmpty then [] else [String.mk cur.reverse]
  | c :: rest, cur =>
    if c.isWhitespace then
      if cur.isEmpty then pySplitWSAux rest []
      else String.mk cur.reverse :: pySplitWSAux rest []
    else pySplitWSAux rest (c :: cur)

/-- Python `str.split()` with no argument: split on whitespace runs, dropping empty tokens. -/
def pySplitWS (s : String) : List String := pySplitWSAux s.toList []

/-- Helper for `splitComma`. -/
def splitCommaAux : List Char → List Char → List String
  | [], cur => [String.mk cur.reverse]
  | c :: rest, cur =>
    if c = ',' then String.mk cur.reverse :: splitCommaAux rest []
    else splitCommaAux rest (c :: cur)

/-- Python `str.split(',')`: split on every comma, keeping empty components. -/
def splitComma (s : String) : List String := splitCommaAux s.toList []

/-- Helper for `splitColon1`. -/
def splitColon1Aux : List Char → List Char → List String
  | [], cur => [String.mk cur.reverse]
  | c :: rest, cur =>
    if c = ':' then [String.mk cur.reverse, String.mk rest]
    else splitColon1Aux rest (c :: cur)

/-- Python `text.split(":", 1)`: split at the first colon only. -/
def splitColon1 (s : String) : List String := splitColon1Aux s.toList []

/-- Numeric value of a digit-character list read left to right (models `int()` on a digit string). -/
def natOfDigits : List Char → Nat → Nat
  | [], acc => acc
  | c :: rest, acc => natOfDigits rest (acc * 10 + (c.toNat - 48))

/-- Numeric value of a digit string. -/
def natOfString (s : String) : Nat := natOfDigits s.toList 0

/-- Python `str.isdigit()` (ASCII model): nonempty and all digits. -/
def pyIsdigit (s : String) : Bool :=
  match s.toList with
  | [] => false
  | l => l.all Char.isDigit

/-- Python `re.match(r"^\d{4}$", s)`: exactly four digits. -/
def isFourDigits (s : String) : Bool :=
  match s.toList with
  | [a, b, c, d] => a.isDigit && b.isDigit && c.isDigit && d.isDigit
  | _ => false

/-- A regex word character (`\w`), ASCII model. -/
def isWordChar (c : Char) : Bool := c.isAlphanum || c = '_'

/-- Python `re.match(r"^\d{4}\b", text)`: four leading digits followed by a word boundary. -/
def yearPrefix (t : String) : Bool :=
  match t.toList with
  | a :: b :: c :: d :: rest =>
    a.isDigit && b.isDigit && c.isDigit && d.isDigit &&
      (match rest with
       | [] => true
       | e :: _ => !isWordChar e)
  | _ => false

/-- Does this suffix start with `/lot/` immediately followed by a digit? -/
def lotAt : List Char → Bool
  | '/' :: 'l' :: 'o' :: 't' :: '/' :: c :: _ => c.isDigit
  | _ => false

/-- Scan all suffixes for a `/lot/<digits>` occurrence. -/
def lotHrefL : List Char → Bool
  | [] => false
  | c :: rest => lotAt (c :: rest) || lotHrefL rest

/-- Python `re.search(r"/lot/\d+", href)`. -/
def lotHref (href : String) : Bool := lotHrefL href.toList

/-- Helper for `digitRuns`: `cur` is the current digit run, reversed. -/
def digitRunsAux : List Char → List Char → List String
  | [], cur => if cur.isEmpty then [] else [String.mk cur.reverse]
  | c :: rest, cur =>
    if c.isDigit then digitRunsAux rest (c :: cur)
    else if cur.isEmpty then digitRunsAux rest []
    else String.mk cur.reverse :: digitRunsAux rest []

/-- Python `re.findall(r"\d+", s)`: maximal runs of digits. -/
def digitRuns (s : String) : List String := digitRunsAux s.toList []

/-- Remove every comma (models `value.replace(',', '')`). -/
def stripCommas (s : String) : String := String.mk (s.toList.filter (fun c => ¬ c = ','))

/-- Python `int(s)` as a partial function: strip, optional sign, then digits only. -/
def pyIntOpt (s : String) : Option Int :=
  match (pyStrip s).toList with
  | '-' :: rest =>
    if rest ≠ [] ∧ rest.all Char.isDigit then some (-(natOfDigits rest 0 : Int)) else none
  | '+' :: rest =>
    if rest ≠ [] ∧ rest.all Char.isDigit then some ((natOfDigits rest 0 : Int)) else none
  | l => if l ≠ [] ∧ l.all Char.isDigit then some ((natOfDigits l 0 : Int)) else none

/-- Python `"sep".join(items)`. -/
def joinWith (sep : String) : List String → String
  | [] => ""
  | [x] => x
  | x :: y :: rest => x ++ sep ++ joinWith sep (y :: rest)

/-- Python `href.startswith("/")`. -/
def startsWithSlash (s : String) : Bool :=
  match s.toList with
  | c :: _ => c = '/'
  | [] => false

/-- Python negative index `l[-2]` as an `Option` (`none` = `IndexError`). -/
def negIdx2 {α : Type} (l : List α) : Option α :=
  if 2 ≤ l.length then l[l.length - 2]? else none

/-! ## Exceptions -/

/-- Python exceptions are modelled by their class name. -/
abbrev PyErr := String

/-- A Python `try: ... except: ...` returning a default on any exception. -/
def pyTry {α : Type} (x : Except PyErr α) (dflt : α) : α :=
  match x with
  | .ok v => v
  | .error _ => dflt

/-! ## Document model

A parsed page (`BeautifulSoup` result) is modelled by the results of the DOM
queries the source performs: the anchor tags, the texts of the `li` tags, the
lot-page `h1` title, the `strong` headers (with their parent `p` and that
paragraph's next sibling `ul`), and the `td` cells (with their next sibling
`td`'s text).  The last three fields (`countdownText`, `priceVal`, `bidCount`)
are document observables used only by spec-side definitions (the countdown /
price / bid-count content the spec's status rule consults); the embedded code
never reads them. -/

/-- One `<a>` tag: its attribute list and its visible text. -/
structure Anchor where
  attrs : List (String × String)
  text : String
deriving DecidableEq

/-- A `<p>` tag as seen from a `strong` header: its next sibling `ul`'s `li` texts, if any. -/
structure PBlock where
  nextUl : Option (List String)
deriving DecidableEq

/-- A `<strong>` tag: its string content and its parent `<p>`, if any. -/
structure StrongBlock where
  label : String
  parentP : Option PBlock
deriving DecidableEq

/-- A `<td>` cell: its string content and its next sibling `<td>`'s text, if any. -/
structure TdCell where
  str : String
  nextTd : Option String
deriving DecidableEq

/-- A parsed document. -/
structure Soup where
  anchors : List Anchor
  liTexts : List String
  h1Title : Option String
  strongs : List StrongBlock
  tds : List TdCell
  countdownText : String
  priceVal : Option Nat
  bidCount : Nat
deriving DecidableEq

/-- A document with nothing in it. -/
def emptySoup : Soup :=
  { anchors := [], liTexts := [], h1Title := none, strongs := [], tds := [],
    countdownText := "", priceVal := none, bidCount := 0 }

/-! ## Field Extractor (`clean_joined_fields`, `extract_field`,
`extract_general_condition`, `extract_features_list`, `extract_location`) -/

/-- Helper for `clean_joined_fields`: insert `", "` at each lowercase→uppercase boundary. -/
def cjfL : List Char → List Char
  | c1 :: c2 :: rest =>
    if c1.isLower ∧ c2.isUpper then c1 :: ',' :: ' ' :: cjfL (c2 :: rest)
    else c1 :: cjfL (c2 :: rest)
  | l => l

/-- Python `re.sub(r'([a-z])([A-Z])', r'\1, \2', text)`. -/
def clean_joined_fields (text : String) : String := String.mk (cjfL text.toList)

/-- Python `re.match(rf"^{re.escape(label)}\s*:", text, re.IGNORECASE)`:
`text` starts with `label` (case-insensitively), then optional whitespace, then a colon. -/
def labelColonMatch (label text : String) : Bool :=
  let lt := lowerL text.toList
  let ll := lowerL label.toList
  isPrefixOfL ll lt &&
    (match (lt.drop ll.length).dropWhile Char.isWhitespace with
     | ':' :: _ => true
     | _ => false)

/-- The `for li in li_tags` loop of `extract_field`. -/
def extract_field_go (label : String) : List String → String
  | [] => "N/A"
  | li :: rest =>
    let text := pyStrip li
    if labelColonMatch label text then
      match splitColon1 text with
      | [_, v] => clean_joined_fields (pyStrip v)
      | _ => extract_field_go label rest
    else extract_field_go label rest

/-- `extract_field(soup, label)`: scan all `li` tags for `label:` and return the cleaned remainder. -/
def extract_field (soup : Soup) (label : String) : String :=
  extract_field_go label soup.liTexts

/-- The `ul` items under a matched header's paragraph: `[li.get_text(strip=True) ...] if ul else []`. -/
def sibListItems : Option (List String) → List String
  | some lis => lis.map pyStrip
  | none => []

/-- Body of `extract_general_condition`'s `try:` block, applied to the result of
the `strong` search; `find_parent('p')` returning `None` makes the subsequent
`find_next_sibling` raise `AttributeError`. -/
def gcFromStrong : Option StrongBlock → Except PyErr String
  | none => .ok "N/A"
  | some sb =>
    match sb.parentP with
    | none => .error "AttributeError"
    | some p =>
      let items := sibListItems p.nextUl
      if items.isEmpty then .ok "N/A" else .ok (joinWith "\n" items)

/-- `extract_general_condition(soup)`: the `try/except` wrapper returning `'N/A'` on error. -/
def extract_general_condition (soup : Soup) : String :=
  pyTry (gcFromStrong (soup.strongs.find? (fun sb => containsCI sb.label "condition assessment")))
    "N/A"

/-- Body of `extract_features_list`'s `try:` block (joining with `', '`). -/
def featFromStrong : Option StrongBlock → Except PyErr String
  | none => .ok "N/A"
  | some sb =>
    match sb.parentP with
    | none => .error "AttributeError"
    | some p =>
      let items := sibListItems p.nextUl
      if items.isEmpty then .ok "N/A" else .ok (joinWith ", " items)

/-- `extract_features_list(soup)`. -/
def extract_features_list (soup : Soup) : String :=
  pyTry (featFromStrong (soup.strongs.find? (fun sb => startsWithCI sb.label "features"))) "N/A"

/-- The fixed list of recognised region abbreviations. -/
def regionList : List String := ["NSW", "VIC", "QLD", "SA", "WA", "TAS", "NT"]

/-- The final step of `extract_location`: strip, uppercase, and whitelist the component. -/
def locRegion (comp : String) : Except PyErr String :=
  let region := strUpper (pyStrip comp)
  if region ∈ regionList then .ok region else .ok "N/A"

/-- `location_text.split(',')[-2]` and onwards: `IndexError` when the address has
fewer than two comma-separated components. -/
def locFromSib : Option String → Except PyErr String
  | none => .error "AttributeError"
  | some sibText =>
    match negIdx2 (splitComma (pyStrip sibText)) with
    | none => .error "IndexError"
    | some comp => locRegion comp

/-- Body of `extract_location`'s `try:` block, applied to the result of the
`Location`-cell search; a missing next sibling `td` raises `AttributeError`
at `get_text`. -/
def extract_location_core : Option TdCell → Except PyErr String
  | none => .ok "N/A"
  | some cell => locFromSib cell.nextTd

/-- `extract_location(soup)`. -/
def extract_location (soup : Soup) : String :=
  pyTry (extract_location_core (soup.tds.find? (fun td => containsCI td.str "Location"))) "N/A"

/-! ## Detail Parser (`extract_vehicle_details`) -/

/-- The value stored in a numeric detail field: a Python `int`, `None`, or `''`
(the FIELD_MAP loop's `else` branch stores the empty string when the label is missing). -/
inductive NumField where
  | int (n : Int)
  | null
  | emptyStr
deriving DecidableEq

/-- The record (Python dict) built by `extract_vehicle_details`. -/
structure Details where
  url : String
  title : String
  year : Option Nat
  make : String
  model : String
  variant : String
  status : String
  body_type : String
  no_of_seats : NumField
  vin : String
  fuel_type : String
  transmission : String
  odometer_reading : NumField
  exterior_colour : String
  general_condition : String
  features_list : String
  location : String
deriving DecidableEq

/-- FIELD_MAP loop, `else` branch: `value if value != "N/A" else ""`. -/
def strFieldVal (v : String) : String := if v = "N/A" then "" else v

/-- FIELD_MAP loop, `no_of_seats` branch: `int(value)` under `try/except`, else branch on `'N/A'`. -/
def seatsVal (v : String) : NumField :=
  if v = "N/A" then NumField.emptyStr
  else
    match pyIntOpt v with
    | some n => NumField.int n
    | none => NumField.null

/-- FIELD_MAP loop, `odometer_reading` branch: first digit run of the de-comma'd value. -/
def odoVal (v : String) : NumField :=
  if v = "N/A" then NumField.emptyStr
  else
    match digitRuns (stripCommas v) with
    | n :: _ => NumField.int (natOfString n)
    | [] => NumField.null

/-- `extract_vehicle_details(soup, url)`: title/year/make/model/variant from the
`h1` heading, FIELD_MAP fields via `extract_field`, status hard-coded `"active"`,
then condition / features / location via their extractors. -/
def extract_vehicle_details (soup : Soup) (url : String) : Details :=
  let title := match soup.h1Title with
    | some t => pyStrip t
    | none => "N/A"
  let title_parts := pySplitWS title
  let yearStr : Option String := match title_parts with
    | t0 :: _ => if isFourDigits t0 then some t0 else none
    | [] => none
  let make := match title_parts with
    | _ :: m :: _ => m
    | _ => "Unknown"
  let model := match title_parts with
    | _ :: _ :: m :: _ => m
    | _ => "Unknown"
  let variant := if 3 < title_parts.length then joinWith " " (title_parts.drop 3) else ""
  let year : Option Nat := match yearStr with
    | some y => if pyIsdigit y then some (natOfString y) else none
    | none => none
  { url := url
    title := title
    year := year
    make := make
    model := model
    variant := variant
    status := "active"
    body_type := strFieldVal (extract_field soup "Body Type")
    no_of_seats := seatsVal (extract_field soup "No. of Seats")
    vin := strFieldVal (extract_field soup "VIN")
    fuel_type := strFieldVal (extract_field soup "Fuel Type")
    transmission := strFieldVal (extract_field soup "Transmission")
    odometer_reading := odoVal (extract_field soup "Indicated Odometer Reading")
    exterior_colour := strFieldVal (extract_field soup "Exterior Colour")
    general_condition := extract_general_condition soup
    features_list := extract_features_list soup
    location := extract_location soup }

/-! ## Link Collector and crawl (`extract_all_vehicle_links`) -/

/-- Does the tag carry the attribute? (bs4 keyword filter `<name>=True`). -/
def hasAttr (a : Anchor) (name : String) : Bool :=
  (a.attrs.find? (fun kv => kv.1 = name)).isSome

/-- Python `a["href"]`-style subscript: raises `KeyError` when the attribute is absent. -/
def getAttr (a : Anchor) (name : String) : Except PyErr String :=
  match a.attrs.find? (fun kv => kv.1 = name) with
  | some kv => .ok kv.2
  | none => .error "KeyError"

/-- The motorcycle/quad keyword filter. -/
def bikeMatch (text : String) : Bool :=
  ["motorbike", "motor bike", "quad"].any (fun b => containsL b.toList (lowerL text.toList))

/-- The `for a in soup.find_all(...)` body of `extract_all_vehicle_links`,
threading the `seen` set and accumulating this page's new links (in order). -/
def collect_page_links : List Anchor → List String → List String →
    Except PyErr (List String × List String)
  | [], seen, acc => .ok (seen, acc.reverse)
  | a :: rest, seen, acc => do
    let href ← getAttr a "href"
    let text := pyStrip a.text
    if lotHref href ∧ yearPrefix text then
      if bikeMatch text then collect_page_links rest seen acc
      else
        let full_url := if startsWithSlash href then "https://www.grays.com" ++ href else href
        if full_url ∈ seen then collect_page_links rest seen acc
        else collect_page_links rest (full_url :: seen) (full_url :: acc)
    else collect_page_links rest seen acc

/-- The network and browser environment: fetching an index page may fail with an
exception (caught by the `try/except` around `requests.get`), and `safe_goto`
on a detail URL either yields the page content or reports failure after retries. -/
structure Env where
  fetchIndex : Nat → Except PyErr Soup
  fetchDetail : String → Option Soup

/-- The `while page <= max_pages` loop of `extract_all_vehicle_links`:
`rem` is the number of page indices left (`max_pages - page + 1`).  A fetch
error breaks the loop (returning what was accumulated); an empty page breaks;
a `KeyError` inside the anchor loop propagates (it is outside the `try`). -/
def crawlPages (env : Env) : Nat → Nat → List String → List String → Except PyErr (List String)
  | 0, _, _, all => .ok all
  | rem + 1, page, seen, all =>
    match env.fetchIndex page with
    | .error _ => .ok all
    | .ok soup =>
      match collect_page_links (soup.anchors.filter (fun a => hasAttr a "href__")) seen [] with
      | .error e => .error e
      | .ok (seen2, page_links) =>
        if page_links.isEmpty then .ok all
        else crawlPages env rem (page + 1) seen2 (all ++ page_links)

/-- `extract_all_vehicle_links(max_pages)`.  Note the source filters anchors with
`soup.find_all("a", href__=True)` — the literal attribute name `href__`. -/
def extract_all_vehicle_links (env : Env) (max_pages : Nat) : Except PyErr (List String) :=
  crawlPages env max_pages 1 [] []

/-! ## Detail fetch loop (`process_links_with_playwright`) -/

/-- The per-URL loop: a failed `safe_goto` skips the URL, a successful one
parses the page and appends the record. -/
def processLinks (env : Env) : List String → List Details × List String
  | [] => ([], [])
  | url :: rest =>
    let r := processLinks env rest
    match env.fetchDetail url with
    | some soup => (extract_vehicle_details soup url :: r.1, r.2)
    | none => (r.1, url :: r.2)

/-- `process_links_with_playwright(links, max_vehicles)`: process at most
`max_vehicles` of the links; returns (results, skipped). -/
def process_links_with_playwright (env : Env) (links : List String) (max_vehicles : Nat) :
    List Details × List String :=
  processLinks env (links.take max_vehicles)

/-! ## Endpoints (`trigger_scrape`, `update_listings`) -/

/-- The response of `POST /api/scrape`. -/
inductive ScrapeResp where
  | noLinks
  | success (found processed : Nat)
  | httpError (msg : PyErr)
deriving DecidableEq

/-- The module-level mutable state: `vehicle_links` and `vehicles_db` (the Result Store). -/
structure AppState where
  vehicle_links : List String
  vehicles_db : List Details
deriving DecidableEq

/-- `trigger_scrape()`: collect links (max_pages=5), early-return when none,
process at most 20 details, then replace `vehicles_db`; any exception escapes
to the `except` clause as an HTTP 500, with the globals left as they were at
the point of the raise (the failed assignment never happened). -/
def trigger_scrape (env : Env) (st : AppState) : ScrapeResp × AppState :=
  match extract_all_vehicle_links env 5 with
  | .error e => (.httpError e, st)
  | .ok links =>
    let st1 := { st with vehicle_links := links }
    if links.isEmpty then (.noLinks, st1)
    else
      let r := process_links_with_playwright env links 20
      (.success links.length r.1.length, { st1 with vehicles_db := r.1 })

/-- One row of the `POST /api/update-listings` response. -/
structure Projection where
  url : String
  price : Option Nat
  bids : Nat
  time_remaining : String
  status : String
deriving DecidableEq

/-- `update_listings(request)`: returns the fixed placeholder row for each URL. -/
def update_listings (urls : List String) : List Projection :=
  urls.map (fun u =>
    { url := u, price := none, bids := 0, time_remaining := "Unknown", status := "active" })

/-! ## Spec-side definitions

These follow the specification's words (not the source) and exist only to be
compared with the embedded code: the ListingStatus rule, the update-listings
projection, the Link Collector's qualifying-link rule, and the location rule. -/

/-- Follows the spec's words: `active` when the countdown text contains a digit,
`sold` when there are no countdown digits and a price is present and bid count > 0,
`referred` otherwise. -/
def spec_listing_status (countdown : String) (price : Option Nat) (bids : Nat) : String :=
  if countdown.toList.any Char.isDigit then "active"
  else if price.isSome ∧ 0 < bids then "sold"
  else "referred"

/-- Follows the spec's words: re-fetch the URL's page and re-parse the volatile
fields (price, bids, time-remaining, status); a failed fetch yields an
error-status placeholder for that URL. -/
def spec_update_one (env : Env) (u : String) : Projection :=
  match env.fetchDetail u with
  | some soup =>
    { url := u, price := soup.priceVal, bids := soup.bidCount,
      time_remaining := soup.countdownText,
      status := spec_listing_status soup.countdownText soup.priceVal soup.bidCount }
  | none =>
    { url := u, price := none, bids := 0, time_remaining := "", status := "error" }

/-- Follows the spec's words: one projection per input URL, in input order. -/
def spec_update_listings (env : Env) (urls : List String) : List Projection :=
  urls.map (spec_update_one env)

/-- Follows the claim's words: a hyperlink qualifies when its target matches the
numeric lot path pattern, its visible text begins with a 4-digit year token,
and its text is free of motorcycle/quad keywords. -/
def spec_qualifies (a : Anchor) : Bool :=
  match a.attrs.find? (fun kv => kv.1 = "href") with
  | some kv => lotHref kv.2 && yearPrefix (pyStrip a.text) && !bikeMatch (pyStrip a.text)
  | none => false

/-- The address text the location extractor reads: the text of the `td` following
the `Location` cell (a projection of the document, used to state C10). -/
def addrOf (soup : Soup) : Option String :=
  match soup.tds.find? (fun td => containsCI td.str "Location") with
  | some cell => cell.nextTd
  | none => none

/-- Follows the claim's words: the location is the uppercased (trimmed)
second-to-last comma-delimited component of the address text, only when that
component is one of exactly NSW, VIC, QLD, SA, WA, TAS, NT; any other region
string, and any address with fewer than two comma-separated components, yields
the absence marker. -/
def spec_location : Option String → String
  | none => "N/A"
  | some addr =>
    match negIdx2 (splitComma (pyStrip addr)) with
    | none => "N/A"
    | some comp =>
      let region := strUpper (pyStrip comp)
      if region ∈ regionList then region else "N/A"

/-! ## Concrete fixtures for counterexamples and witnesses -/

/-- A detail page whose observables say: no countdown digits, price 5000, 3 bids. -/
def soupSold : Soup := { emptySoup with priceVal := some 5000, bidCount := 3 }

/-- A detail page whose heading is "2019 Toyota Corolla Ascent". -/
def soupTitled : Soup := { emptySoup with h1Title := some "2019 Toyota Corolla Ascent" }

/-- An environment whose detail fetch always returns the sold-looking page. -/
def envSold : Env :=
  { fetchIndex := fun _ => .error "ConnectionError", fetchDetail := fun _ => some soupSold }

/-- A qualifying lot anchor as real HTML has it: an `href` attribute (no `href__`). -/
def anchorQ : Anchor := { attrs := [("href", "/lot/12345")], text := "2019 Toyota Corolla" }

/-- A disqualified motorcycle anchor. -/
def anchorBike : Anchor := { attrs := [("href", "/lot/99999")], text := "2020 Kawasaki motorbike" }

/-- An index page with one qualifying link and one motorcycle link. -/
def soupIndexReal : Soup := { emptySoup with anchors := [anchorQ, anchorBike] }

/-- Environment for C3: page 1 is the realistic index page. -/
def envC3 : Env :=
  { fetchIndex := fun p => if p = 1 then .ok soupIndexReal else .error "HTTPError",
    fetchDetail := fun _ => none }

/-- A lot anchor that additionally carries the literal `href__` attribute the
source's bs4 filter demands, so the collector can see it. -/
def anchor1 : Anchor :=
  { attrs := [("href__", ""), ("href", "/lot/111")], text := "2019 Ford Ranger" }

/-- A second such anchor, on page 3. -/
def anchor3 : Anchor :=
  { attrs := [("href__", ""), ("href", "/lot/333")], text := "2018 Mazda BT-50" }

/-- Index page 1 for the pagination scenarios. -/
def soupPage1 : Soup := { emptySoup with anchors := [anchor1] }

/-- Index page 3 for the pagination scenarios. -/
def soupPage3 : Soup := { emptySoup with anchors := [anchor3] }

/-- Environment for C4: page 1 succeeds, page 2 fails, page 3 would succeed. -/
def envC4 : Env :=
  { fetchIndex := fun p =>
      match p with
      | 1 => .ok soupPage1
      | 3 => .ok soupPage3
      | _ => .error "Timeout",
    fetchDetail := fun _ => none }

/-- A successful single-page crawl environment: one link found, detail fetch works. -/
def envGood : Env :=
  { fetchIndex := fun p => if p = 1 then .ok soupPage1 else .error "Timeout",
    fetchDetail := fun _ => some emptySoup }

/-- A crawl environment whose index page parses but yields no qualifying links. -/
def envNoLinks : Env :=
  { fetchIndex := fun p => if p = 1 then .ok emptySoup else .error "Timeout",
    fetchDetail := fun _ => some emptySoup }

/-- An anchor bearing `href__` but no `href`: the subscript `a["href"]` raises `KeyError`. -/
def anchorNoHref : Anchor := { attrs := [("href__", "")], text := "x" }

/-- An index page that makes the anchor loop raise (uncaught) inside link collection. -/
def soupRaising : Soup := { emptySoup with anchors := [anchorNoHref] }

/-- Environment for C5's witness: link collection raises an uncaught `KeyError`. -/
def envRaising : Env :=
  { fetchIndex := fun p => if p = 1 then .ok soupRaising else .error "Timeout",
    fetchDetail := fun _ => none }

/-- A prior store contents: one record from an earlier crawl. -/
def stPrior : AppState :=
  { vehicle_links := ["https://www.grays.com/lot/777"],
    vehicles_db := [extract_vehicle_details emptySoup "https://www.grays.com/lot/777"] }

/-- The empty initial state. -/
def stEmpty : AppState := { vehicle_links := [], vehicles_db := [] }

/-- A detail page whose address text names the ACT, which the whitelist omits. -/
def soupACT : Soup :=
  { emptySoup with
    tds := [{ str := "Location", nextTd := some "10 London Cct, Canberra, ACT, 2600" }] }

/-- A detail page whose address text has a single comma-free component. -/
def soupOneComp : Soup :=
  { emptySoup with tds := [{ str := "Location", nextTd := some "Sydney" }] }

/-- A detail page whose address text carries a recognised region. -/
def soupNSW : Soup :=
  { emptySoup with tds := [{ str := "Location", nextTd := some "1 Main St, Sydney, NSW, 2000" }] }

end GraysScraper

deriving instance DecidableEq for Except

namespace GraysScraper

/-! ## Helper lemmas -/

/-- The title the Detail Parser works from: the stripped `h1` text, else `"N/A"`. -/
def titleOf (soup : Soup) : String :=
  match soup.h1Title with
  | some t => pyStrip t
  | none => "N/A"

theorem evd_url (soup : Soup) (url : String) :
    (extract_vehicle_details soup url).url = url := rfl

theorem evd_status (soup : Soup) (url : String) :
    (extract_vehicle_details soup url).status = "active" := rfl

theorem evd_title (soup : Soup) (url : String) :
    (extract_vehicle_details soup url).title = titleOf soup := rfl

theorem evd_location (soup : Soup) (url : String) :
    (extract_vehicle_details soup url).location = extract_location soup := rfl

theorem evd_general_condition (soup : Soup) (url : String) :
    (extract_vehicle_details soup url).general_condition = extract_general_condition soup := rfl

theorem evd_features_list (soup : Soup) (url : String) :
    (extract_vehicle_details soup url).features_list = extract_features_list soup := rfl

theorem evd_year (soup : Soup) (url : String) :
    (extract_vehicle_details soup url).year =
      (match (match pySplitWS (titleOf soup) with
              | t0 :: _ => if isFourDigits t0 then some t0 else none
              | [] => none) with
       | some y => if pyIsdigit y then some (natOfString y) else none
       | none => none) := rfl

theorem evd_make (soup : Soup) (url : String) :
    (extract_vehicle_details soup url).make =
      (match pySplitWS (titleOf soup) with
       | _ :: m :: _ => m
       | _ => "Unknown") := rfl

theorem evd_model (soup : Soup) (url : String) :
    (extract_vehicle_details soup url).model =
      (match pySplitWS (titleOf soup) with
       | _ :: _ :: m :: _ => m
       | _ => "Unknown") := rfl

theorem evd_variant (soup : Soup) (url : String) :
    (extract_vehicle_details soup url).variant =
      (if 3 < (pySplitWS (titleOf soup)).length then joinWith " " ((pySplitWS (titleOf soup)).drop 3)
       else "") := rfl

/-- A string matching `^\d{4}$` also satisfies Python's `isdigit()`. -/
theorem pyIsdigit_of_isFourDigits {s : String} (h : isFourDigits s = true) :
    pyIsdigit s = true := by
  unfold isFourDigits at h
  unfold pyIsdigit
  rcases hl : s.toList with _ | ⟨a, _ | ⟨b, _ | ⟨c, _ | ⟨d, _ | ⟨e, rest⟩⟩⟩⟩⟩ <;>
    rw [hl] at h <;> simp_all

/-- The variant conditional equals the unconditional join (for short lists the tail is empty). -/
theorem variant_if_eq_join (l : List String) :
    (if 3 < l.length then joinWith " " (l.drop 3) else "") = joinWith " " (l.drop 3) := by
  split
  · rfl
  · next h =>
    rw [List.drop_eq_nil_of_le (by omega)]
    rfl

/-- The caught pipeline from the sibling text down agrees with the claim-side rule. -/
theorem locFromSib_eq_spec (o : Option String) : pyTry (locFromSib o) "N/A" = spec_location o := by
  cases o with
  | none => rfl
  | some sib =>
    simp only [locFromSib, spec_location]
    cases negIdx2 (splitComma (pyStrip sib)) with
    | none => rfl
    | some comp =>
      by_cases hmem : strUpper (pyStrip comp) ∈ regionList <;> simp [locRegion, pyTry, hmem]

/-- The code's location extractor agrees with the claim-side location rule. -/
theorem extract_location_eq_spec (soup : Soup) :
    extract_location soup = spec_location (addrOf soup) := by
  unfold extract_location addrOf
  cases soup.tds.find? (fun td => containsCI td.str "Location") with
  | none => rfl
  | some cell => exact locFromSib_eq_spec cell.nextTd

/-- The claim-side location rule only ever yields the marker or a whitelisted region. -/
theorem spec_location_mem (o : Option String) : spec_location o ∈ "N/A" :: regionList := by
  cases o with
  | none => simp [spec_location]
  | some addr =>
    simp only [spec_location]
    cases negIdx2 (splitComma (pyStrip addr)) with
    | none => simp
    | some comp =>
      dsimp only
      split
      · next hmem => exact List.mem_cons_of_mem _ hmem
      · simp

/-- Every record produced by the detail loop carries the URL it was fetched from. -/
theorem processLinks_url_mem (env : Env) :
    ∀ (l : List String) (d : Details), d ∈ (processLinks env l).1 → d.url ∈ l := by
  intro l
  induction l with
  | nil => intro d hd; simp [processLinks] at hd
  | cons u rest ih =>
    intro d hd
    unfold processLinks at hd
    cases hf : env.fetchDetail u with
    | some soup =>
      rw [hf] at hd
      rcases List.mem_cons.mp hd with hd | hd
      · rw [hd]
        exact List.mem_cons_self u rest
      · exact List.mem_cons_of_mem u (ih d hd)
    | none =>
      rw [hf] at hd
      exact List.mem_cons_of_mem u (ih d hd)

theorem evd_body_type (soup : Soup) (url : String) :
    (extract_vehicle_details soup url).body_type =
      strFieldVal (extract_field soup "Body Type") := rfl

theorem evd_vin (soup : Soup) (url : String) :
    (extract_vehicle_details soup url).vin = strFieldVal (extract_field soup "VIN") := rfl

theorem evd_no_of_seats (soup : Soup) (url : String) :
    (extract_vehicle_details soup url).no_of_seats =
      seatsVal (extract_field soup "No. of Seats") := rfl

theorem evd_odometer (soup : Soup) (url : String) :
    (extract_vehicle_details soup url).odometer_reading =
      odoVal (extract_field soup "Indicated Odometer Reading") := rfl

/-! ## Claim theorems -/

/-- C1, counterexample: the Detail Parser does not derive the lifecycle status by the
ListingStatus rule.  On a document with no countdown digits, a present price (5000)
and 3 bids, the rule yields `"sold"`, but the parser's record carries `"active"`. -/
theorem c1_status_rule_counterexample :
    (extract_vehicle_details soupSold "https://www.grays.com/lot/1").status ≠
      spec_listing_status soupSold.countdownText soupSold.priceVal soupSold.bidCount := by
  decide

/-- C1, amended: the Detail Parser assigns the lifecycle status `"active"`
unconditionally, for every detail document, ignoring countdown text, price and
bid count. -/
theorem c1_status_always_active (soup : Soup) (url : String) :
    (extract_vehicle_details soup url).status = "active" := rfl

/-- C2, counterexample: the update-listings operation does not obtain the volatile
fields by re-fetching and re-parsing.  With a fetch environment in which the URL's
page shows price 5000 and 3 bids (so the spec-side projection is a `"sold"` row with
that price), the operation still returns its fixed placeholder row. -/
theorem c2_no_refetch_counterexample :
    update_listings ["https://www.grays.com/lot/1"] ≠
      spec_update_listings envSold ["https://www.grays.com/lot/1"] := by
  decide

/-- C2, amended: the update-listings operation returns exactly one projection per
input URL, in input order, but every projection is the fixed placeholder:
price absent, bids 0, time-remaining `"Unknown"`, status `"active"`; no fetching
is performed, and a failing fetch can therefore never surface. -/
theorem c2_placeholder_projections (urls : List String) :
    (update_listings urls).map Projection.url = urls ∧
    (update_listings urls).length = urls.length ∧
    ∀ p ∈ update_listings urls,
      p.price = none ∧ p.bids = 0 ∧ p.time_remaining = "Unknown" ∧ p.status = "active" := by
  refine ⟨?_, ?_, ?_⟩
  · induction urls with
    | nil => rfl
    | cons u rest ih => simpa [update_listings] using ih
  · simp [update_listings]
  · intro p hp
    simp only [update_listings, List.mem_map] at hp
    obtain ⟨u, _, rfl⟩ := hp
    exact ⟨rfl, rfl, rfl, rfl⟩

/-- C2, witness: the amended statement evaluated on the two-URL input. -/
theorem c2_witness :
    (update_listings ["a", "b"]).map Projection.url = ["a", "b"] ∧
    (⟨"a", none, 0, "Unknown", "active"⟩ : Projection).status = "active" :=
  ⟨(c2_placeholder_projections ["a", "b"]).1,
   ((c2_placeholder_projections ["a", "b"]).2.2 ⟨"a", none, 0, "Unknown", "active"⟩
     (by decide)).2.2.2⟩

/-- C3: the Link Collector filters anchors with `find_all("a", href__=True)` — the
literal attribute name `href__`, a slip for `href` — so an index page whose one
qualifying link carries only the standard `href` attribute yields zero URLs instead
of one: the filtered anchor list is empty and the crawl returns no links, although
the per-anchor loop itself would have accepted the link had it been considered. -/
theorem c3_href_filter_bug :
    (soupIndexReal.anchors.filter spec_qualifies).length = 1 ∧
    soupIndexReal.anchors.filter (fun a => hasAttr a "href__") = [] ∧
    collect_page_links soupIndexReal.anchors [] [] =
      .ok (["https://www.grays.com/lot/12345"], ["https://www.grays.com/lot/12345"]) ∧
    extract_all_vehicle_links envC3 10 = .ok [] := by
  decide

/-- C4, counterexample: a fetch error on index page 2 is fatal to the pagination
loop: page 3 holds a further qualifying link, yet the collector returns only the
page-1 link — pages after a failed page are not fetched. -/
theorem c4_break_counterexample :
    extract_all_vehicle_links envC4 10 = .ok ["https://www.grays.com/lot/111"] ∧
    envC4.fetchIndex 2 = .error "Timeout" ∧
    envC4.fetchIndex 3 = .ok soupPage3 ∧
    spec_qualifies anchor3 = true ∧
    ("https://www.grays.com/lot/333" : String) ∉ ["https://www.grays.com/lot/111"] := by
  decide

/-- C4, amended: a fetch error on any index page (page 1 included — there is no
strict mode) terminates the pagination loop at once: the links accumulated so far
are returned and no later page is processed. -/
theorem c4_error_ends_pagination (env : Env) (e : PyErr) (page rem : Nat)
    (seen all : List String) (h : env.fetchIndex page = .error e) :
    crawlPages env (rem + 1) page seen all = .ok all := by
  unfold crawlPages
  rw [h]

/-- C4, witness: the amended statement on an environment whose every index fetch fails. -/
theorem c4_witness : crawlPages envSold 1 1 [] [] = .ok [] :=
  c4_error_ends_pagination envSold "ConnectionError" 1 0 [] [] rfl

/-- C5: whenever the crawl reports a failure (an uncaught exception surfaced as an
HTTP 500), the Result Store `vehicles_db` is left exactly at its previous contents. -/
theorem c5_failure_leaves_store (env : Env) (st : AppState) (msg : PyErr)
    (h : (trigger_scrape env st).1 = ScrapeResp.httpError msg) :
    (trigger_scrape env st).2.vehicles_db = st.vehicles_db := by
  unfold trigger_scrape at h ⊢
  cases hl : extract_all_vehicle_links env 5 with
  | error e => rfl
  | ok links =>
    rw [hl] at h
    by_cases he : links.isEmpty <;> simp [he] at h

/-- C5, witness: a crawl whose link collection raises an uncaught `KeyError`
(an anchor with `href__` but no `href`) fails and preserves the prior store. -/
theorem c5_witness :
    (trigger_scrape envRaising stPrior).1 = ScrapeResp.httpError "KeyError" ∧
    (trigger_scrape envRaising stPrior).2.vehicles_db = stPrior.vehicles_db :=
  ⟨by decide, c5_failure_leaves_store envRaising stPrior "KeyError" (by decide)⟩

/-- C6, counterexample: a first crawl stores the lot-111 record; a second crawl
that completes without error but collects zero links returns the no-links
response and leaves the store untouched — the stale lot-111 URL, collected in
the first run and absent from the second run's (empty) collection, is still in
the final store, so two sequential crawls do not always fully replace it. -/
theorem c6_stale_store_counterexample :
    (trigger_scrape envNoLinks (trigger_scrape envGood stEmpty).2).1 = ScrapeResp.noLinks ∧
    extract_all_vehicle_links envNoLinks 5 = .ok [] ∧
    (trigger_scrape envNoLinks (trigger_scrape envGood stEmpty).2).2.vehicles_db.map Details.url =
      ["https://www.grays.com/lot/111"] := by
  decide

/-- C6, amended: after a crawl that reports `success`, the Result Store holds
exactly the records produced from that crawl's collected links — independent of
the prior store contents — and every stored record's URL comes from that crawl's
link collection (so URLs not collected in that run are absent); a crawl that
collects no links leaves the store untouched instead. -/
theorem c6_success_replaces_store (env : Env) (st : AppState) (found processed : Nat)
    (h : (trigger_scrape env st).1 = ScrapeResp.success found processed) :
    ∃ links, extract_all_vehicle_links env 5 = Except.ok links ∧
      (trigger_scrape env st).2.vehicles_db = (process_links_with_playwright env links 20).1 ∧
      ∀ d ∈ (trigger_scrape env st).2.vehicles_db, d.url ∈ links := by
  unfold trigger_scrape at h ⊢
  cases hl : extract_all_vehicle_links env 5 with
  | error e => rw [hl] at h; simp at h
  | ok links =>
    rw [hl] at h
    by_cases he : links.isEmpty
    · simp [he] at h
    · refine ⟨links, rfl, ?_, ?_⟩
      · simp [he]
      · intro d hd
        simp only [he, Bool.false_eq_true, if_false] at hd
        exact List.mem_of_mem_take
          (processLinks_url_mem env (links.take 20) d hd)

/-- C6, witness: the amended statement on a successful one-link crawl. -/
theorem c6_witness :
    ∃ links, extract_all_vehicle_links envGood 5 = Except.ok links ∧
      (trigger_scrape envGood stEmpty).2.vehicles_db =
        (process_links_with_playwright envGood links 20).1 ∧
      ∀ d ∈ (trigger_scrape envGood stEmpty).2.vehicles_db, d.url ∈ links :=
  c6_success_replaces_store envGood stEmpty 1 1 (by decide)

/-- C7: the Detail Parser is total — modelled with explicit exceptions at every
operation the Python can raise at, all of which the source catches — and every
field of the produced record is either an extracted value or its defined default:
the url is the caller's url, the status is the default, the title is the stripped
heading or `"N/A"`, the year is a 4-digit heading token or absent, make and model
are heading tokens or `"Unknown"`, and the location is a whitelisted region or
the absence marker. -/
theorem c7_parser_total_defaults (soup : Soup) (url : String) :
    (extract_vehicle_details soup url).url = url ∧
    (extract_vehicle_details soup url).status = "active" ∧
    ((extract_vehicle_details soup url).title = "N/A" ∨
      ∃ t, soup.h1Title = some t ∧ (extract_vehicle_details soup url).title = pyStrip t) ∧
    ((extract_vehicle_details soup url).year = none ∨
      ∃ t0 rest, pySplitWS (titleOf soup) = t0 :: rest ∧ isFourDigits t0 = true ∧
        (extract_vehicle_details soup url).year = some (natOfString t0)) ∧
    ((extract_vehicle_details soup url).make = "Unknown" ∨
      (pySplitWS (titleOf soup))[1]? = some (extract_vehicle_details soup url).make) ∧
    ((extract_vehicle_details soup url).model = "Unknown" ∨
      (pySplitWS (titleOf soup))[2]? = some (extract_vehicle_details soup url).model) ∧
    (extract_vehicle_details soup url).location ∈ "N/A" :: regionList := by
  refine ⟨evd_url soup url, evd_status soup url, ?_, ?_, ?_, ?_, ?_⟩
  · rw [evd_title]
    unfold titleOf
    cases soup.h1Title with
    | none => exact Or.inl rfl
    | some t => exact Or.inr ⟨t, rfl, rfl⟩
  · rw [evd_year]
    generalize pySplitWS (titleOf soup) = l
    cases l with
    | nil => exact Or.inl rfl
    | cons t0 rest =>
      by_cases h4 : isFourDigits t0
      · refine Or.inr ⟨t0, rest, rfl, h4, ?_⟩
        simp [h4, pyIsdigit_of_isFourDigits h4]
      · simp [h4]
  · rw [evd_make]
    generalize pySplitWS (titleOf soup) = l
    rcases l with _ | ⟨t0, _ | ⟨t1, r⟩⟩
    · exact Or.inl rfl
    · exact Or.inl rfl
    · exact Or.inr (by simp)
  · rw [evd_model]
    generalize pySplitWS (titleOf soup) = l
    rcases l with _ | ⟨t0, _ | ⟨t1, _ | ⟨t2, r⟩⟩⟩
    · exact Or.inl rfl
    · exact Or.inl rfl
    · exact Or.inl rfl
    · exact Or.inr (by simp)
  · rw [evd_location, extract_location_eq_spec]
    exact spec_location_mem _

/-- C8, counterexample: on a document where extraction of the general-condition,
features-list and location fields fails, those fields carry the marker string
`"N/A"` — not an empty-string / zero / absent sentinel as claimed. -/
theorem c8_na_marker_counterexample :
    (extract_vehicle_details emptySoup "https://www.grays.com/lot/2").general_condition = "N/A" ∧
    (extract_vehicle_details emptySoup "https://www.grays.com/lot/2").features_list = "N/A" ∧
    (extract_vehicle_details emptySoup "https://www.grays.com/lot/2").location = "N/A" ∧
    ("N/A" : String) ≠ "" := by
  decide

/-- C8, amended: every record's url equals the caller-supplied URL (hence non-empty
whenever the input is); the FIELD_MAP fields default to the empty string / empty
numeric sentinel when their label is absent; but the general-condition,
features-list and location fields default to the marker string `"N/A"` (not an
empty/zero/absent sentinel) when their extraction fails. -/
theorem c8_url_and_defaults (soup : Soup) (url : String) :
    (extract_vehicle_details soup url).url = url ∧
    (soup.strongs.find? (fun sb => containsCI sb.label "condition assessment") = none →
      (extract_vehicle_details soup url).general_condition = "N/A") ∧
    (soup.strongs.find? (fun sb => startsWithCI sb.label "features") = none →
      (extract_vehicle_details soup url).features_list = "N/A") ∧
    (soup.tds.find? (fun td => containsCI td.str "Location") = none →
      (extract_vehicle_details soup url).location = "N/A") ∧
    (soup.liTexts = [] →
      (extract_vehicle_details soup url).body_type = "" ∧
      (extract_vehicle_details soup url).vin = "" ∧
      (extract_vehicle_details soup url).no_of_seats = NumField.emptyStr ∧
      (extract_vehicle_details soup url).odometer_reading = NumField.emptyStr) := by
  refine ⟨evd_url soup url, ?_, ?_, ?_, ?_⟩
  · intro h
    rw [evd_general_condition]
    unfold extract_general_condition
    rw [h]
    rfl
  · intro h
    rw [evd_features_list]
    unfold extract_features_list
    rw [h]
    rfl
  · intro h
    rw [evd_location]
    unfold extract_location
    rw [h]
    rfl
  · intro h
    have hf : ∀ label, extract_field soup label = "N/A" := by
      intro label
      unfold extract_field
      rw [h]
      rfl
    exact ⟨by rw [evd_body_type, hf]; rfl, by rw [evd_vin, hf]; rfl,
      by rw [evd_no_of_seats, hf]; rfl, by rw [evd_odometer, hf]; rfl⟩

/-- C8, witness: the amended statement on the empty document. -/
theorem c8_witness :
    (extract_vehicle_details emptySoup "u").url = "u" ∧
    (extract_vehicle_details emptySoup "u").general_condition = "N/A" ∧
    (extract_vehicle_details emptySoup "u").body_type = "" :=
  ⟨(c8_url_and_defaults emptySoup "u").1,
   (c8_url_and_defaults emptySoup "u").2.1 rfl,
   ((c8_url_and_defaults emptySoup "u").2.2.2.2 rfl).1⟩

/-- C9: when the document has a first top-level heading, the Detail Parser splits
its (stripped) text on whitespace and takes year = token 0 when it is a 4-digit
numeral (else absent), make = token 1 else `"Unknown"`, model = token 2 else
`"Unknown"`, and variant = the remaining tokens joined with spaces; in particular
the title `"2019 Toyota Corolla Ascent"` yields year 2019, make `"Toyota"`,
model `"Corolla"`, variant `"Ascent"`. -/
theorem c9_title_tokens (soup : Soup) (url t : String) (h : soup.h1Title = some t) :
    ((extract_vehicle_details soup url).title = pyStrip t ∧
     (extract_vehicle_details soup url).year =
       (match (pySplitWS (pyStrip t))[0]? with
        | some t0 => if isFourDigits t0 then some (natOfString t0) else none
        | none => none) ∧
     (extract_vehicle_details soup url).make = ((pySplitWS (pyStrip t))[1]?).getD "Unknown" ∧
     (extract_vehicle_details soup url).model = ((pySplitWS (pyStrip t))[2]?).getD "Unknown" ∧
     (extract_vehicle_details soup url).variant = joinWith " " ((pySplitWS (pyStrip t)).drop 3)) ∧
    ((extract_vehicle_details soupTitled "u").year = some 2019 ∧
     (extract_vehicle_details soupTitled "u").make = "Toyota" ∧
     (extract_vehicle_details soupTitled "u").model = "Corolla" ∧
     (extract_vehicle_details soupTitled "u").variant = "Ascent") := by
  have ht : titleOf soup = pyStrip t := by unfold titleOf; rw [h]
  constructor
  · refine ⟨?_, ?_, ?_, ?_, ?_⟩
    · rw [evd_title, ht]
    · rw [evd_year, ht]
      generalize pySplitWS (pyStrip t) = l
      cases l with
      | nil => rfl
      | cons t0 rest =>
        by_cases h4 : isFourDigits t0
        · simp [h4, pyIsdigit_of_isFourDigits h4]
        · simp [h4]
    · rw [evd_make, ht]
      generalize pySplitWS (pyStrip t) = l
      rcases l with _ | ⟨t0, _ | ⟨t1, r⟩⟩ <;> simp
    · rw [evd_model, ht]
      generalize pySplitWS (pyStrip t) = l
      rcases l with _ | ⟨t0, _ | ⟨t1, _ | ⟨t2, r⟩⟩⟩ <;> simp
    · rw [evd_variant, ht]
      generalize pySplitWS (pyStrip t) = l
      exact variant_if_eq_join l
  · exact ⟨by decide, by decide, by decide, by decide⟩

/-- C9, witness: the theorem applied to the concrete titled document. -/
theorem c9_witness :
    (extract_vehicle_details soupTitled "u").year = some 2019 ∧
    (extract_vehicle_details soupTitled "u").make = "Toyota" :=
  ⟨(c9_title_tokens soupTitled "u" "2019 Toyota Corolla Ascent" rfl).2.1,
   (c9_title_tokens soupTitled "u" "2019 Toyota Corolla Ascent" rfl).2.2.1⟩

/-- C10: the extracted location always equals the claim-side rule applied to the
address text — the uppercased, trimmed second-to-last comma-delimited component,
accepted only when it is one of exactly NSW, VIC, QLD, SA, WA, TAS, NT — and in
particular an ACT address and a single-component address both yield the absence
marker, while an NSW address yields `"NSW"`. -/
theorem c10_location_whitelist :
    (∀ soup : Soup, extract_location soup = spec_location (addrOf soup)) ∧
    extract_location soupACT = "N/A" ∧
    extract_location soupOneComp = "N/A" ∧
    extract_location soupNSW = "NSW" := by
  refine ⟨extract_location_eq_spec, by decide, by decide, by decide⟩

end GraysScraper
